import Mathlib

/-!
Verification of the multi-agent business-analysis orchestrator.

The definitions below are shallow embeddings of the Python sources:
  * `business_analysis_farm.py` — tmux-based farm (role assignment,
    launch sequencing, tmux send/capture/session helpers, CLI validation);
  * `claude_sdk_agent_farm.py` — SDK-based farm (agent configs);
  * `backend_server.py` — run registry, monitor loop, stop operation.

External effects (subprocess calls, sleeps, websocket delivery) are
modelled by explicit parameters: a `Bool`/`Option` per external call
records whether that call succeeded and what it returned, and sleeps are
recorded as the list of delays requested (in milliseconds).
-/

namespace AgentFarm

/-! ### Role catalogs

`BUSINESS_AGENT_TYPES` in `business_analysis_farm.py` is a dict whose
insertion order fixes the role catalog order (15 entries). -/

def business_agent_types : List String :=
  [ "financial_modeling"
  , "customer_analytics"
  , "pricing_strategy"
  , "market_intelligence"
  , "operations_analytics"
  , "risk_assessment"
  , "strategic_planning"
  , "data_integration"
  , "qa_validation"
  , "synthesis_coordination"
  , "executive_report_generator"
  , "implementation_planning"
  , "financial_audit_compliance"
  , "business_case_writer"
  , "implementation_coordinator" ]

/-- Assignment phase of `BusinessAnalysisFarm._launch_business_agents`:
`for i in range(self.agents): agent_assignments.append(agent_types[i % len(agent_types)])`. -/
def agent_assignments (agents : Nat) : List String :=
  (List.range agents).map
    (fun i => business_agent_types.getD (i % business_agent_types.length) "")

/-- Structure `AgentConfig` of `claude_sdk_agent_farm.py`, restricted to the fields
the role-assignment claims are about (the remaining fields are static
prompt text). -/
structure AgentConfig where
  agent_id : Nat
  agent_type : String
deriving DecidableEq, Repr

/-- The ten hard-coded configs of `ClaudeSDKAgentFarm._create_agent_configs`. -/
def sdk_config_catalog : List AgentConfig :=
  [ ⟨0, "financial_modeling"⟩
  , ⟨1, "customer_analytics"⟩
  , ⟨2, "pricing_strategy"⟩
  , ⟨3, "market_intelligence"⟩
  , ⟨4, "operations_analytics"⟩
  , ⟨5, "risk_assessment"⟩
  , ⟨6, "strategic_planning"⟩
  , ⟨7, "data_integration"⟩
  , ⟨8, "qa_validation"⟩
  , ⟨9, "synthesis_coordination"⟩ ]

/-- Function `ClaudeSDKAgentFarm._create_agent_configs`: `return configs[:self.num_agents]`. -/
def create_agent_configs (num_agents : Nat) : List AgentConfig :=
  sdk_config_catalog.take num_agents

/-! ### Terminal multiplexer adapter (`business_analysis_farm.py`)

The subprocess calls inside each retry loop are abstracted by a function
from the attempt number to that attempt's outcome; sleeps are recorded as
the list of requested delays in milliseconds. -/

/-- Retry loop of `tmux_send`: `fail a = true` means the loop body raised
`CalledProcessError` on attempt `a`.  Mirrors
`for attempt in range(max_retries): try: ...; break
 except CalledProcessError: if attempt < max_retries - 1:
   time.sleep(base_delay * (2**attempt)) else: raise`.
Returns the delays slept and `some k` when attempt `k` succeeded,
`none` when the last attempt's failure was re-raised.  `fuel` is the
number of attempts remaining (`max_retries - attempt`). -/
def send_attempts (fail : Nat → Bool) (base_delay : Nat) :
    Nat → Nat → List Nat × Option Nat
  | _, 0 => ([], none)
  | attempt, fuel + 1 =>
    if fail attempt then
      if fuel = 0 then ([], none)
      else
        let r := send_attempts fail base_delay (attempt + 1) fuel
        (base_delay * 2 ^ attempt :: r.1, r.2)
    else ([], some attempt)

/-- Function `tmux_send` with its constants `max_retries = 3`, `base_delay = 0.5` s
(500 ms). -/
def tmux_send (fail : Nat → Bool) : List Nat × Option Nat :=
  send_attempts fail 500 0 3

/-- Retry loop of `tmux_capture`: `res a = none` means the
`tmux capture-pane` call raised on attempt `a`, `res a = some out` that it
returned `out`.  Mirrors
`for attempt in range(max_retries): try: return stdout
 except CalledProcessError: if attempt < max_retries - 1: time.sleep(0.2)
 else: return ""`.
The codomain is `String`, not `Except`: every exit path of the Python
function returns a string. -/
def capture_attempts (res : Nat → Option String) :
    Nat → Nat → String
  | _, 0 => ""
  | attempt, fuel + 1 =>
    match res attempt with
    | some stdout => stdout
    | none => if fuel = 0 then "" else capture_attempts res (attempt + 1) fuel

/-- Function `tmux_capture` with its constant `max_retries = 3`. -/
def tmux_capture (res : Nat → Option String) : String :=
  capture_attempts res 0 3

/-- Outcomes of the three subprocess calls `ensure_session_exists` can make:
`has-session` (exit status observed, never raises), `new-session` with
`check=True`, `set-option mouse on` with `check=True`. -/
structure TmuxHost where
  has_session : Bool
  new_session_ok : Bool
  set_mouse_ok : Bool
deriving DecidableEq, Repr

inductive SessionAction
  | created
  | noop
deriving DecidableEq, Repr

/-- Function `ensure_session_exists(session, tmux_mouse)`: if `has-session` reports
the session, return (no-op).  Otherwise run `new-session` with
`check=True` (raising on failure), then — when `tmux_mouse` — run
`set-option mouse on`, also with `check=True` (raising on failure). -/
def ensure_session_exists (host : TmuxHost) (tmux_mouse : Bool) :
    Except Unit SessionAction :=
  if host.has_session then Except.ok SessionAction.noop
  else if host.new_session_ok = false then Except.error ()
  else if tmux_mouse && !host.set_mouse_ok then Except.error ()
  else Except.ok SessionAction.created

/-! ### Launch sequencing (`BusinessAnalysisFarm._launch_business_agents`) -/

/-- Launch phase of `_launch_business_agents`:
`for i, agent_type in enumerate(agent_assignments):
   self._launch_single_agent(i, agent_type)` with no per-worker exception
handling.  `launch_ok i = false` means `_launch_single_agent(i, _)`
raised.  Returns the indices actually launched and `some i` when worker
`i`'s failure propagated out of the loop. -/
def launch_loop (launch_ok : Nat → Bool) :
    List (Nat × String) → List Nat × Option Nat
  | [] => ([], none)
  | (i, _role) :: rest =>
    if launch_ok i then
      let r := launch_loop launch_ok rest
      (i :: r.1, r.2)
    else ([], some i)

/-- Launch of `_launch_business_agents` for `agents` workers. -/
def launch_business_agents (agents : Nat) (launch_ok : Nat → Bool) :
    List Nat × Option Nat :=
  launch_loop launch_ok (agent_assignments agents).enum

/-! ### Character-level string helpers

Lean core's `String.replace`/`splitOn`/`trim` are defined by well-founded
recursion and do not reduce in the kernel, so the Python string
operations the monitor uses are embedded structurally on `List Char`. -/

/-- Tests whether `needle` is a leading segment of `hay`. -/
def starts_with : List Char → List Char → Bool
  | [], _ => true
  | _ :: _, [] => false
  | a :: as, b :: bs => a == b && starts_with as bs

/-- Python `needle in hay` (substring containment). -/
def has_substr (needle : List Char) : List Char → Bool
  | [] => starts_with needle []
  | c :: rest => starts_with needle (c :: rest) || has_substr needle rest

/-- Python `s.split(sep)`: split on every occurrence, keeping empties;
the result is never empty. -/
def split_char (sep : Char) : List Char → List (List Char)
  | [] => [[]]
  | c :: cs =>
    let r := split_char sep cs
    if c == sep then [] :: r
    else
      match r with
      | [] => [[c]]
      | g :: gs => (c :: g) :: gs

/-- Python `s.split(sep, 1)[1]`: everything after the first occurrence of
`sep`, or `none` when `sep` is absent (where Python raises `IndexError`). -/
def after_first (sep : Char) : List Char → Option (List Char)
  | [] => none
  | c :: cs => if c == sep then some cs else after_first sep cs

/-- Python `s.strip()`. -/
def trim_chars (l : List Char) : List Char :=
  ((l.dropWhile Char.isWhitespace).reverse.dropWhile Char.isWhitespace).reverse

/-- Python `s.replace(pat, '')` for a non-empty `pat`: delete every
occurrence, scanning left to right.  `fuel ≥ hay.length` makes the
recursion structural; each step consumes at least one character. -/
def remove_pattern (pat : List Char) : Nat → List Char → List Char
  | 0, hay => hay
  | _ + 1, [] => []
  | fuel + 1, c :: rest =>
    if starts_with pat (c :: rest) then
      remove_pattern pat fuel ((c :: rest).drop pat.length)
    else c :: remove_pattern pat fuel rest

def agent_marker : List Char := "agent_".data

/-! ### Run registry, monitor and stop (`backend_server.py`) -/

inductive Status
  | starting
  | running
  | completed
  | error
  | stopped
deriving DecidableEq, Repr

/-- Model of `SessionStatus` (the Run record), with times as abstract instants. -/
structure Session where
  status : Status
  agents_active : Nat
  start_time : Nat
  end_time : Option Nat
  results_available : Bool
  message : String
deriving DecidableEq, Repr

/-- The websocket notifications `monitor_analysis_progress` and
`stop_analysis` push (`notify_websocket_clients` payloads). -/
inductive Event
  | agent_thinking (agent : String) (content : String)
  | agent_progress (active_agents : Nat)
  | analysis_completed
  | status_update (status : Status) (end_time : Option Nat)
deriving DecidableEq, Repr

/-- Python dict assignment `d[k] = v`: replace in place when the key is
present, append otherwise. -/
def dict_set (m : List (String × String)) (k v : String) :
    List (String × String) :=
  if (m.lookup k).isSome then
    m.map (fun p => if p.1 = k then (k, v) else p)
  else m ++ [(k, v)]

/-- Parsing `window_parts = window_line.split(':'); if len(window_parts) >= 2:
window_name = window_parts[1].strip().split(' ')[0]` — `none` when the
line has no colon (the window is skipped). -/
def parse_window_name (line : String) : Option String :=
  match split_char ':' line.data with
  | _ :: second :: _ =>
    some ⟨(trim_chars second).takeWhile (fun c => !(c == ' '))⟩
  | _ => none

/-- Extraction `window_name.replace('agent_', '').split('_', 1)[1] if 'agent_' in
window_name else window_name`.  When the replaced name has no underscore
Python would raise `IndexError` into the monitor's outer exception
handler; that unreachable corner is modelled as the empty string. -/
def extract_agent_type (window_name : String) : String :=
  if has_substr agent_marker window_name.data then
    ⟨(after_first '_'
        (remove_pattern agent_marker window_name.data.length window_name.data)).getD []⟩
  else window_name

/-- Body of the per-window streaming loop of `monitor_analysis_progress`:
parse the window name, `capture-pane` it (`capture w = none` models a
non-zero return code), strip the output, compare with
`agent_last_content`, store the new content, and emit an
`agent_thinking` event when the content is new *and* non-empty.  Returns
the updated dict and the events emitted for this window. -/
def window_step (capture : String → Option String)
    (last : List (String × String)) (line : String) :
    List (String × String) × List Event :=
  match parse_window_name line with
  | none => (last, [])
  | some window_name =>
    match capture window_name with
    | none => (last, [])
    | some out =>
      let current_content : String := ⟨trim_chars out.data⟩
      if (last.lookup window_name).isNone ∨
          ¬ (last.lookup window_name = some current_content) then
        let last' := dict_set last window_name current_content
        if current_content = "" then (last', [])
        else
          (last',
            [Event.agent_thinking (extract_agent_type window_name) current_content])
      else (last, [])

/-- The full per-window loop over the agent windows of one poll cycle. -/
def process_windows (capture : String → Option String) :
    List String → List (String × String) → List (String × String) × List Event
  | [], last => (last, [])
  | line :: rest, last =>
    let r1 := window_step capture last line
    let r2 := process_windows capture rest r1.1
    (r2.1, r1.2 ++ r2.2)

/-- Outcome of `tmux list-windows` in one poll cycle: `ok` is
`returncode == 0`, `lines` the stdout lines. -/
structure TmuxListing where
  ok : Bool
  lines : List String
deriving DecidableEq, Repr

/-- Result of one monitor poll cycle: the mutated session, the updated
per-window last-seen map, the events pushed, and whether the loop exited
via `break`. -/
structure CycleResult where
  session : Session
  last_content : List (String × String)
  events : List Event
  loop_break : Bool
deriving DecidableEq, Repr

/-- One iteration of the `while` loop of `monitor_analysis_progress` for
a session currently in the registry.  Sleeps are elided; `now` is the
instant `datetime.now()` would return in this cycle.  A session whose
status is not `starting`/`running` is skipped (sleep and `continue`); a
failed `list-windows` (session gone) only waits longer; otherwise the
agent windows are counted, streamed and, at count zero, the run is
completed and the loop broken. -/
def monitor_cycle (sess : Session) (last : List (String × String))
    (listing : TmuxListing) (capture : String → Option String) (now : Nat) :
    CycleResult :=
  if ¬ (sess.status = Status.starting ∨ sess.status = Status.running) then
    ⟨sess, last, [], false⟩
  else if listing.ok then
    let agent_windows := listing.lines.filter (fun w => has_substr agent_marker w.data)
    let active_agents := agent_windows.length
    let sess1 : Session :=
      { sess with
          agents_active := active_agents,
          message := "Analysis running: " ++ toString active_agents ++ " agents active" }
    let r := process_windows capture agent_windows last
    let events := r.2 ++ [Event.agent_progress active_agents]
    if active_agents = 0 then
      ⟨{ sess1 with
            status := Status.completed,
            end_time := some now,
            results_available := true,
            message := "Analysis completed - all agents finished" },
        r.1, events ++ [Event.analysis_completed], true⟩
    else ⟨sess1, r.1, events, false⟩
  else ⟨sess, last, [], false⟩

/-- Operation `stop_analysis(session_id)` (`DELETE /api/analysis/{session_id}`):
404 when the id is unknown; otherwise best-effort `tmux kill-session`
(`check=False`, never raises), then unconditionally set
`status = "stopped"`, `end_time = now`, `message = "Analysis stopped by
user"` and notify the websocket subscriber once. -/
def stop_analysis (reg : List (String × Session)) (session_id : String)
    (now : Nat) : Except Unit (Session × List Event) :=
  match reg.lookup session_id with
  | none => Except.error ()
  | some s =>
    let s' : Session :=
      { s with
          status := Status.stopped,
          end_time := some now,
          message := "Analysis stopped by user" }
    Except.ok (s', [Event.status_update s'.status s'.end_time])

/-- A run that has completed (as `monitor_analysis_progress` leaves it). -/
def completed_session_example : Session :=
  ⟨Status.completed, 0, 3, some 7, true, "Analysis completed - all agents finished"⟩

/-- A run already stopped by `stop_analysis` at instant 5. -/
def stopped_session_example : Session :=
  ⟨Status.stopped, 2, 3, some 5, false, "Analysis stopped by user"⟩

/-- A run in mid-analysis. -/
def running_session_example : Session :=
  ⟨Status.running, 3, 5, none, false, "Analysis running: 3 agents active"⟩

/-! ### CLI validation (`main` of `business_analysis_farm.py`) -/

inductive MainValidation
  | exit_path_error
  | exit_agents_error
  | proceed
deriving DecidableEq, Repr

/-- The validation prefix of `main` that runs before
`BusinessAnalysisFarm(...)` is constructed: the project-path directory
check, then `agents < 1`, then `agents > 50`; each failure raises
`typer.Exit(1)`. -/
def main_validate (path_is_dir : Bool) (agents : Int) : MainValidation :=
  if !path_is_dir then MainValidation.exit_path_error
  else if agents < 1 then MainValidation.exit_agents_error
  else if agents > 50 then MainValidation.exit_agents_error
  else MainValidation.proceed

end AgentFarm

namespace AgentFarm

/-! ### Theorems -/

/-- C1 counterexample: the claim asserts that for every worker count `N`
the worker `i` (for each `i < N`) is assigned `catalog[i mod K]`.  In the
SDK farm (`_create_agent_configs`) with `N = 11` and `K = 10`, worker 10
receives no configuration at all (the catalog is truncated, not wrapped),
whereas the claim demands role `catalog[10 mod 10] = "financial_modeling"`. -/
theorem sdk_configs_not_round_robin :
    (create_agent_configs 11).get? 10 = none ∧
      sdk_config_catalog.get? (10 % sdk_config_catalog.length) =
        some ⟨0, "financial_modeling"⟩ := by
  decide

/-- C1 amended: role assignment in the tmux farm is genuinely round-robin —
worker `i` gets `catalog[i mod 15]` for every `i < N`, and the assignment
list has length `N`.  In the SDK farm the config list is the fixed
10-entry catalog truncated to `min N 10`: worker `i` gets `catalog[i]`
only for `i < min N 10`, with no wrap-around.  Both assignments are pure
functions of `N`, hence deterministic across re-runs. -/
theorem role_assignment_characterization (n i : Nat) (h : i < n) :
    (agent_assignments n).length = n ∧
    (agent_assignments n).get? i =
      some (business_agent_types.getD (i % business_agent_types.length) "") ∧
    (create_agent_configs n).length = min n sdk_config_catalog.length ∧
    (i < min n sdk_config_catalog.length →
      (create_agent_configs n).get? i = sdk_config_catalog.get? i) := by
  refine ⟨?_, ?_, ?_, ?_⟩
  · simp [agent_assignments]
  · simp [agent_assignments, List.getElem?_map, List.getElem?_range h]
  · simp [create_agent_configs, List.length_take, Nat.min_comm]
  · intro hi
    simp [create_agent_configs, List.getElem?_take_of_lt (lt_min_iff.mp hi).1]

/-- C1 amended, witness: instantiate at `n = 17`, `i = 16` (wrap-around in
the tmux farm: worker 16 gets `catalog[1] = "customer_analytics"`). -/
theorem role_assignment_characterization_witness :
    (agent_assignments 17).get? 16 = some "customer_analytics" := by
  have h := role_assignment_characterization 17 16 (by decide)
  have h2 := h.2.1
  rw [h2]
  decide

/-- Helper: when every worker in an enumerated suffix launches
successfully, the loop launches them all and no failure propagates. -/
theorem launch_loop_enumFrom_all_ok (ok : Nat → Bool) (l : List String) :
    ∀ s : Nat, (∀ j, s ≤ j → j < s + l.length → ok j = true) →
      launch_loop ok (List.enumFrom s l) = (List.range' s l.length, none) := by
  induction l with
  | nil => intro s _; simp [launch_loop]
  | cons x xs ih =>
    intro s h
    have hs : ok s = true := h s le_rfl (by simp)
    have hrec := ih (s + 1) (fun j hj1 hj2 => h j (by omega) (by simp at hj2 ⊢; omega))
    simp [List.enumFrom_cons, launch_loop, hs, hrec, List.range'_succ]

/-- Helper: when worker `i` is the first to fail, the loop launches
exactly the workers before `i` and the failure propagates. -/
theorem launch_loop_enumFrom_fail (ok : Nat → Bool) (i : Nat) (hi : ok i = false)
    (l : List String) :
    ∀ s : Nat, s ≤ i → i < s + l.length → (∀ j, s ≤ j → j < i → ok j = true) →
      launch_loop ok (List.enumFrom s l) = (List.range' s (i - s), some i) := by
  induction l with
  | nil => intro s hsi hlt _; simp at hlt; omega
  | cons x xs ih =>
    intro s hsi hlt h
    rcases Nat.eq_or_lt_of_le hsi with heq | hlt2
    · subst heq
      simp [List.enumFrom_cons, launch_loop, hi]
    · have hs : ok s = true := h s le_rfl hlt2
      have hrec := ih (s + 1) (by omega) (by simp at hlt ⊢; omega)
        (fun j hj1 hj2 => h j (by omega) hj2)
      have hr : i - s = (i - (s + 1)) + 1 := by omega
      simp [List.enumFrom_cons, launch_loop, hs, hrec, hr, List.range'_succ]

/-- C4 counterexample: with 3 workers and the launch of worker 1 raising,
worker 2 is never launched — `_launch_business_agents` has no per-worker
exception handling, so the failure aborts the rest of the launch loop,
contrary to the claim that workers `i+1..N-1` are still launched. -/
theorem launch_failure_aborts_remaining :
    launch_business_agents 3 (fun i => decide (i ≠ 1)) = ([0], some 1) ∧
      2 ∉ (launch_business_agents 3 (fun i => decide (i ≠ 1))).1 := by
  decide

/-- C4 amended: a failure launching worker `i` aborts the launch loop —
exactly workers `0..i-1` are launched, the exception propagates (`run()`
re-raises it after cleanup, and the backend transitions the Run to
`error`); only when every launch succeeds are all `N` workers launched. -/
theorem launch_failure_aborts (ok : Nat → Bool) (n : Nat) :
    ((∀ j, j < n → ok j = true) →
      launch_business_agents n ok = (List.range n, none)) ∧
    (∀ i, i < n → (∀ j, j < i → ok j = true) → ok i = false →
      launch_business_agents n ok = (List.range i, some i)) := by
  have hlen : (agent_assignments n).length = n := by simp [agent_assignments]
  have henum : (agent_assignments n).enum = List.enumFrom 0 (agent_assignments n) := rfl
  constructor
  · intro h
    have hall := launch_loop_enumFrom_all_ok ok (agent_assignments n) 0
      (fun j _ hj2 => h j (by omega))
    rw [launch_business_agents, henum, hall, hlen, List.range_eq_range']
  · intro i hin hpre hif
    have hfail := launch_loop_enumFrom_fail ok i hif (agent_assignments n) 0
      (Nat.zero_le i) (by omega) (fun j _ hj2 => hpre j hj2)
    rw [launch_business_agents, henum, hfail, Nat.sub_zero, List.range_eq_range']

/-- C4 amended witness: worker 1 fails out of 3 — only worker 0 launched,
failure index 1 propagated. -/
theorem launch_failure_aborts_witness :
    launch_business_agents 3 (fun i => decide (i ≠ 1)) = (List.range 1, some 1) :=
  (launch_failure_aborts (fun i => decide (i ≠ 1)) 3).2 1 (by decide)
    (fun j hj => by interval_cases j; decide) (by decide)

/-- C6: `tmux_send` makes at most 3 attempts in total: any successful
attempt index is below 3; when all three attempts fail the failure of the
final attempt is re-raised (`none`) after sleeping exactly the backoff
delays `500·2⁰, 500·2¹` ms; and when attempt `k < 3` is the first to
succeed the call returns `some k` having slept the doubling delays for
each failed attempt before it. -/
theorem tmux_send_retry_and_backoff (fail : Nat → Bool) :
    (∀ k, (tmux_send fail).2 = some k → k < 3) ∧
    (fail 0 = true → fail 1 = true → fail 2 = true →
      tmux_send fail = ([500 * 2 ^ 0, 500 * 2 ^ 1], none)) ∧
    (∀ k, k < 3 → fail k = false → (∀ j, j < k → fail j = true) →
      tmux_send fail = ((List.range k).map fun j => 500 * 2 ^ j, some k)) := by
  refine ⟨?_, ?_, ?_⟩
  · intro k hk
    rcases h0 : fail 0 <;> rcases h1 : fail 1 <;> rcases h2 : fail 2 <;>
      simp [tmux_send, send_attempts, h0, h1, h2] at hk <;> omega
  · intro h0 h1 h2
    simp [tmux_send, send_attempts, h0, h1, h2]
  · intro k hk hkf hprev
    interval_cases k
    · simp [tmux_send, send_attempts, hkf]
    · have h0 := hprev 0 (by omega)
      simp [tmux_send, send_attempts, h0, hkf, List.range_succ]
    · have h0 := hprev 0 (by omega)
      have h1 := hprev 1 (by omega)
      simp [tmux_send, send_attempts, h0, h1, hkf, List.range_succ]

/-- C6 witness: first attempt fails, second succeeds — one 500 ms backoff
delay is slept and the call returns successfully on attempt 1. -/
theorem tmux_send_retry_and_backoff_witness :
    tmux_send (fun a => decide (a = 0)) = ([500], some 1) := by
  have h := (tmux_send_retry_and_backoff (fun a => decide (a = 0))).2.2 1
    (by decide) (by decide) (by intro j hj; interval_cases j; decide)
  simpa using h

/-- C7: `tmux_capture` never raises — its codomain is `String` and every
exit path returns: if all 3 attempts fail it returns the empty string,
and if attempt `k < 3` is the first to succeed it returns that attempt's
captured output. -/
theorem tmux_capture_no_raise (res : Nat → Option String) :
    ((∀ a, a < 3 → res a = none) → tmux_capture res = "") ∧
    (∀ k s, k < 3 → res k = some s → (∀ j, j < k → res j = none) →
      tmux_capture res = s) := by
  constructor
  · intro hall
    have h0 := hall 0 (by omega)
    have h1 := hall 1 (by omega)
    have h2 := hall 2 (by omega)
    simp [tmux_capture, capture_attempts, h0, h1, h2]
  · intro k s hk hks hprev
    interval_cases k
    · simp [tmux_capture, capture_attempts, hks]
    · have h0 := hprev 0 (by omega)
      simp [tmux_capture, capture_attempts, h0, hks]
    · have h0 := hprev 0 (by omega)
      have h1 := hprev 1 (by omega)
      simp [tmux_capture, capture_attempts, h0, h1, hks]

/-- C7 witness: all three capture attempts fail and the caller receives
the empty string rather than an exception. -/
theorem tmux_capture_no_raise_witness :
    tmux_capture (fun _ => none) = "" :=
  (tmux_capture_no_raise (fun _ => none)).1 (fun _ _ => rfl)

/-- C9 counterexample: the claim says a failure of the mouse-option
command is never propagated, i.e. `ensure_session_exists` succeeds
whenever session creation succeeds.  But `set-option ... mouse on` runs
with `check=True`: with the session absent, creation succeeding and the
mouse option failing, the call raises to its caller. -/
theorem ensure_session_mouse_failure_raises :
    (TmuxHost.mk false true false).new_session_ok = true ∧
      ensure_session_exists ⟨false, true, false⟩ true = Except.error () :=
  ⟨rfl, rfl⟩

/-- C9 amended: `ensure_session_exists` is a no-op when the session is
present and creates it only when absent; but when `tmux_mouse` is set the
mouse-option failure *is* propagated (`check=True`), so with the session
absent the call succeeds iff creation succeeds and (when `tmux_mouse`)
the mouse option also succeeds. -/
theorem ensure_session_characterization (host : TmuxHost) (mouse : Bool) :
    (host.has_session = true →
      ensure_session_exists host mouse = Except.ok SessionAction.noop) ∧
    (host.has_session = false →
      (ensure_session_exists host mouse = Except.ok SessionAction.created ↔
        host.new_session_ok = true ∧ (mouse = true → host.set_mouse_ok = true))) := by
  rcases host with ⟨hs, ns, sm⟩
  rcases hs <;> rcases ns <;> rcases sm <;> rcases mouse <;>
    simp [ensure_session_exists]

/-- C9 amended witness: session already present — no-op success. -/
theorem ensure_session_characterization_witness :
    ensure_session_exists ⟨true, false, false⟩ true = Except.ok SessionAction.noop :=
  (ensure_session_characterization ⟨true, false, false⟩ true).1 rfl

/-- Helper: replacing the value stored at a present key makes lookup
return the new value. -/
theorem lookup_map_replace (t : List (String × String)) (k v : String) :
    (t.lookup k).isSome →
      (t.map (fun p => if p.1 = k then (k, v) else p)).lookup k = some v := by
  induction t with
  | nil => intro h; simp [List.lookup] at h
  | cons p t ih =>
    intro h
    rcases p with ⟨a, b⟩
    simp only [List.map_cons]
    by_cases hak : a = k
    · subst hak
      rw [if_pos (show ((a, b) : String × String).1 = a from rfl)]
      simp [List.lookup]
    · have hka : (k == a) = false := beq_eq_false_iff_ne.mpr (Ne.symm hak)
      have h' : (t.lookup k).isSome := by
        simpa [List.lookup, hka] using h
      rw [if_neg (show ¬ ((a, b) : String × String).1 = k from hak)]
      simp only [List.lookup, hka]
      exact ih h'

/-- Helper: appending a fresh key makes lookup return its value. -/
theorem lookup_append_absent (t : List (String × String)) (k v : String) :
    t.lookup k = none → (t ++ [(k, v)]).lookup k = some v := by
  induction t with
  | nil => intro _; simp [List.lookup]
  | cons p t ih =>
    intro h
    rcases p with ⟨a, b⟩
    by_cases hak : a = k
    · subst hak
      simp [List.lookup] at h
    · have hka : (k == a) = false := beq_eq_false_iff_ne.mpr (Ne.symm hak)
      have h' : t.lookup k = none := by
        simpa [List.lookup, hka] using h
      simpa [List.lookup, hka] using ih h'

/-- Helper: after `d[k] = v`, looking up `k` yields `v`. -/
theorem lookup_dict_set_self (m : List (String × String)) (k v : String) :
    (dict_set m k v).lookup k = some v := by
  by_cases h : (m.lookup k).isSome
  · rw [dict_set, if_pos h]
    exact lookup_map_replace m k v h
  · rw [dict_set, if_neg h]
    exact lookup_append_absent m k v (Option.not_isSome_iff_eq_none.mp h)

/-- C2 counterexample: terminal states are not absorbing — `stop_analysis`
unconditionally force-sets the state, so a run already `completed` is
moved to `stopped` by a subsequent stop. -/
theorem stop_changes_completed_state :
    completed_session_example.status = Status.completed ∧
      stop_analysis [("run1", completed_session_example)] "run1" 9 =
        Except.ok
          ({ completed_session_example with
              status := Status.stopped, end_time := some 9,
              message := "Analysis stopped by user" },
            [Event.status_update Status.stopped (some 9)]) ∧
      Status.stopped ≠ Status.completed :=
  ⟨rfl, rfl, by decide⟩

/-- C2 amended: terminal states are absorbing with respect to the
*Monitor* — a poll cycle on a run whose state is `completed`, `error` or
`stopped` mutates nothing, emits nothing and does not break — but
`stop_analysis` force-sets any existing run's state to `stopped` (and its
end time to the stop instant) regardless of the state it was in, so a
terminal state can still be left via `stop`. -/
theorem terminal_states_monitor_absorbing (sess : Session)
    (last : List (String × String)) (listing : TmuxListing)
    (capture : String → Option String) (now : Nat)
    (hterm : sess.status = Status.completed ∨ sess.status = Status.error ∨
      sess.status = Status.stopped) :
    monitor_cycle sess last listing capture now = ⟨sess, last, [], false⟩ ∧
    (∀ (reg : List (String × Session)) (sid : String) (s' : Session)
        (evs : List Event),
      reg.lookup sid = some sess →
      stop_analysis reg sid now = Except.ok (s', evs) →
      s'.status = Status.stopped ∧ s'.end_time = some now) := by
  have hcond : ¬ (sess.status = Status.starting ∨ sess.status = Status.running) := by
    rcases hterm with h | h | h <;> simp [h]
  constructor
  · simp [monitor_cycle, hcond]
  · intro reg sid s' evs hlook hstop
    unfold stop_analysis at hstop
    rw [hlook] at hstop
    simp only [Except.ok.injEq, Prod.mk.injEq] at hstop
    rw [← hstop.1]
    exact ⟨rfl, rfl⟩

/-- C2 amended witness: a completed run is untouched by a monitor cycle,
and stopping it yields state `stopped` with the new end time. -/
theorem terminal_states_monitor_absorbing_witness :
    monitor_cycle completed_session_example [] ⟨true, []⟩ (fun _ => none) 9 =
      ⟨completed_session_example, [], [], false⟩ :=
  (terminal_states_monitor_absorbing completed_session_example [] ⟨true, []⟩
    (fun _ => none) 9 (Or.inl rfl)).1

/-- C3: in a poll cycle where the run is active, `list-windows` succeeds
and no agent window remains, the monitor completes the run in that very
cycle: state `completed`, end time set to the cycle's instant (which is
at or after the start time), exactly one completed event pushed, and the
loop exits via `break`. -/
theorem zero_workers_completes (sess : Session) (last : List (String × String))
    (listing : TmuxListing) (capture : String → Option String) (now : Nat)
    (hact : sess.status = Status.starting ∨ sess.status = Status.running)
    (hok : listing.ok = true)
    (hzero : listing.lines.filter (fun w => has_substr agent_marker w.data) = [])
    (hclock : sess.start_time ≤ now) :
    (monitor_cycle sess last listing capture now).session.status =
      Status.completed ∧
    (monitor_cycle sess last listing capture now).session.end_time = some now ∧
    (∀ t, (monitor_cycle sess last listing capture now).session.end_time = some t →
      sess.start_time ≤ t) ∧
    (monitor_cycle sess last listing capture now).events.count
      Event.analysis_completed = 1 ∧
    (monitor_cycle sess last listing capture now).loop_break = true := by
  have hval : monitor_cycle sess last listing capture now =
      ⟨{ sess with
            status := Status.completed,
            agents_active := 0,
            end_time := some now,
            results_available := true,
            message := "Analysis completed - all agents finished" },
        last, [Event.agent_progress 0, Event.analysis_completed], true⟩ := by
    rcases hact with h | h <;> simp [monitor_cycle, h, hok, hzero, process_windows]
  rw [hval]
  refine ⟨rfl, rfl, ?_, rfl, rfl⟩
  intro t ht
  simp only [Option.some.injEq] at ht
  omega

/-- C3 witness: a running session started at instant 5, observed at
instant 9 with only a non-agent window left. -/
theorem zero_workers_completes_witness :
    (monitor_cycle running_session_example []
        ⟨true, ["0: bash (1 panes)"]⟩ (fun _ => none) 9).session.status =
      Status.completed ∧
    (monitor_cycle running_session_example []
        ⟨true, ["0: bash (1 panes)"]⟩ (fun _ => none) 9).session.end_time = some 9 ∧
    (∀ t, (monitor_cycle running_session_example []
        ⟨true, ["0: bash (1 panes)"]⟩ (fun _ => none) 9).session.end_time = some t →
      running_session_example.start_time ≤ t) ∧
    (monitor_cycle running_session_example []
        ⟨true, ["0: bash (1 panes)"]⟩ (fun _ => none) 9).events.count
      Event.analysis_completed = 1 ∧
    (monitor_cycle running_session_example []
        ⟨true, ["0: bash (1 panes)"]⟩ (fun _ => none) 9).loop_break = true :=
  zero_workers_completes running_session_example []
    ⟨true, ["0: bash (1 panes)"]⟩ (fun _ => none) 9 (Or.inr rfl) rfl
    (by decide) (by decide)

/-- C5 counterexample: stopping an already-stopped run is not attribute-
preserving: the second call at instant 9 overwrites `end_time`
(previously 5) and pushes another status event (one, not zero). -/
theorem second_stop_mutates_and_notifies :
    stopped_session_example.status = Status.stopped ∧
      stopped_session_example.end_time = some 5 ∧
      stop_analysis [("run2", stopped_session_example)] "run2" 9 =
        Except.ok
          ({ stopped_session_example with end_time := some 9 },
            [Event.status_update Status.stopped (some 9)]) ∧
      ¬ ((some 9 : Option Nat) = some 5) :=
  ⟨rfl, rfl, rfl, by decide⟩

/-- C5 amended: a second `stop` on an already-stopped run succeeds
without error and leaves the state (`stopped`) and message unchanged, but
it *does* overwrite `end_time` with the instant of the second call and
pushes one more status event. -/
theorem stop_on_stopped_characterization (reg : List (String × Session))
    (sid : String) (s : Session) (now : Nat)
    (hfound : reg.lookup sid = some s) (hstopped : s.status = Status.stopped) :
    stop_analysis reg sid now =
      Except.ok
        ({ s with status := Status.stopped, end_time := some now,
                  message := "Analysis stopped by user" },
          [Event.status_update Status.stopped (some now)]) ∧
    ({ s with status := Status.stopped, end_time := some now,
              message := "Analysis stopped by user" } : Session).status = s.status := by
  constructor
  · unfold stop_analysis
    rw [hfound]
  · simp [hstopped]

/-- C5 amended witness: second stop at instant 11 on the run stopped at
instant 5. -/
theorem stop_on_stopped_characterization_witness :
    stop_analysis [("run3", stopped_session_example)] "run3" 11 =
      Except.ok
        ({ stopped_session_example with
            status := Status.stopped, end_time := some 11,
            message := "Analysis stopped by user" },
          [Event.status_update Status.stopped (some 11)]) :=
  (stop_on_stopped_characterization [("run3", stopped_session_example)] "run3"
    stopped_session_example 11 (by decide) rfl).1

/-- C8 counterexample: on a worker's *first* capture, if the captured
(stripped) tail is empty, the content differs from the (absent) last-seen
text yet *no* worker-progress event is emitted — refuting "an event is
emitted exactly when the captured text differs from the last-seen text
(including the first capture)". -/
theorem first_capture_empty_no_event :
    ([] : List (String × String)).lookup "agent_0_financial_modeling" = none ∧
      window_step (fun _ => some "   ") []
          "1: agent_0_financial_modeling (1 panes)" =
        ([("agent_0_financial_modeling", "")], []) := by
  constructor
  · rfl
  · decide

/-- C8 amended: per worker window, with the pane captured successfully:
if the stripped tail equals the last-seen text the window is skipped (no
event, no map update); if it differs (including first-time-seen) the map
is updated and a worker-progress event carrying the full stripped tail is
emitted *iff* that tail is non-empty; and a second consecutive cycle
capturing the identical tail emits nothing. -/
theorem diff_suppression_characterization (capture : String → Option String)
    (last : List (String × String)) (line w out : String)
    (hparse : parse_window_name line = some w)
    (hcap : capture w = some out) :
    (last.lookup w = some ⟨trim_chars out.data⟩ →
      window_step capture last line = (last, [])) ∧
    (¬ (last.lookup w = some ⟨trim_chars out.data⟩) →
      window_step capture last line =
        (dict_set last w ⟨trim_chars out.data⟩,
          if (⟨trim_chars out.data⟩ : String) = "" then []
          else [Event.agent_thinking (extract_agent_type w) ⟨trim_chars out.data⟩])) ∧
    window_step capture (dict_set last w ⟨trim_chars out.data⟩) line =
      (dict_set last w ⟨trim_chars out.data⟩, []) := by
  refine ⟨?_, ?_, ?_⟩
  · intro hsame
    simp [window_step, hparse, hcap, hsame]
  · intro hdiff
    simp only [window_step, hparse, hcap]
    rw [if_pos (Or.inr hdiff)]
    split_ifs with hnil <;> simp [hnil]
  · have hself := lookup_dict_set_self last w ⟨trim_chars out.data⟩
    simp [window_step, hparse, hcap, hself]

/-- C8 amended witness: first capture of a non-empty tail emits exactly
one worker-progress event carrying the tail, tagged with the agent type
extracted from the window name. -/
theorem diff_suppression_characterization_witness :
    window_step (fun _ => some "hello") []
        "1: agent_0_financial_modeling (1 panes)" =
      ([("agent_0_financial_modeling", "hello")],
        [Event.agent_thinking "financial_modeling" "hello"]) := by
  have h := (diff_suppression_characterization (fun _ => some "hello") []
      "1: agent_0_financial_modeling (1 panes)" "agent_0_financial_modeling"
      "hello" (by decide) rfl).2.1 (by decide)
  rw [h]
  decide

/-- C10: the CLI validates the worker count before any farm is
constructed: out-of-range agent counts (`< 1` or `> 50`) never reach
`proceed`; reaching `proceed` implies `1 ≤ agents ≤ 50`; and an in-range
count never triggers the agents-bound exit, proceeding whenever the path
check also passes.  Hence no run started through the CLI has more than 50
workers. -/
theorem cli_agent_bound (path_is_dir : Bool) (agents : Int) :
    ((agents < 1 ∨ 50 < agents) →
      main_validate path_is_dir agents ≠ MainValidation.proceed) ∧
    (main_validate path_is_dir agents = MainValidation.proceed →
      1 ≤ agents ∧ agents ≤ 50) ∧
    (1 ≤ agents → agents ≤ 50 →
      main_validate path_is_dir agents ≠ MainValidation.exit_agents_error) ∧
    (path_is_dir = true → 1 ≤ agents → agents ≤ 50 →
      main_validate path_is_dir agents = MainValidation.proceed) := by
  rcases path_is_dir <;>
    refine ⟨?_, ?_, ?_, ?_⟩ <;>
    simp only [main_validate] <;> split_ifs <;> simp_all

/-- C10 witness: 51 agents are rejected, 50 are accepted. -/
theorem cli_agent_bound_witness :
    main_validate true 51 ≠ MainValidation.proceed ∧
      main_validate true 50 = MainValidation.proceed :=
  ⟨(cli_agent_bound true 51).1 (Or.inr (by norm_num)),
    (cli_agent_bound true 50).2.2.2 rfl (by norm_num) (by norm_num)⟩

end AgentFarm
